import Mathlib

/-!
Verification development for the GANlib gene-annotation library.

The Rust sources are shallowly embedded below.  Rust strings are Lean
`String`s; the char-pattern operations Rust uses (`split('\t')`,
`split(';')`, `split_once('=')`, `splitn(2, ' ')`, `trim`,
`trim_matches('"')`, `starts_with`, `to_lowercase`) are re-implemented
as structurally recursive functions over `List Char` so that every
definition evaluates inside the kernel.  `HashMap<String, String>` is
embedded as an association list with last-write-wins insertion
(`insertA`) and key lookup (`lookupA`); Rust map equality corresponds to
extensional equality of `lookupA`, and the insertion order used here is
deterministic.  Fallible Rust functions returning `Result` are embedded
with `RResult`; functions that can `panic!` (through `unwrap`) return a
dedicated outcome type with a `panicked` constructor.
-/

/-- Result type mirroring Rust `Result<T, Box<dyn Error>>`; the error
payload is the message string handed to the error constructor. -/
inductive RResult (α : Type) where
  | ok (val : α)
  | error (msg : String)
  deriving DecidableEq

/-- Outcome of a Rust computation that can also panic (via `unwrap` or
an explicit `panic!`): it produces a value, returns a typed error, or
panics. -/
inductive ParseOutcome (α : Type) where
  | ok (val : α)
  | err (msg : String)
  | panicked
  deriving DecidableEq

/-- Rust `char`-pattern `split`: `"".split(c)` yields `[""]`, and a
trailing separator yields a trailing empty piece. -/
def splitChar (c : Char) : List Char → List (List Char)
  | [] => [[]]
  | x :: xs =>
    if x == c then [] :: splitChar c xs
    else
      match splitChar c xs with
      | [] => [[x]]
      | g :: gs => (x :: g) :: gs

/-- String wrapper for `splitChar`. -/
def ssplit (c : Char) (s : String) : List String :=
  (splitChar c s.toList).map (fun l => (⟨l⟩ : String))

/-- ASCII whitespace test used by the embedding of Rust `str::trim`
(the inputs of interest contain only ASCII whitespace). -/
def isWS (c : Char) : Bool :=
  c == ' ' || c == '\t' || c == '\n' || c == '\r'

/-- Rust `str::trim`: strip whitespace from both ends. -/
def rtrim (s : String) : String :=
  ⟨((s.toList.dropWhile isWS).reverse.dropWhile isWS).reverse⟩

/-- Rust `str::to_lowercase` (ASCII case folding). -/
def lowerS (s : String) : String :=
  ⟨s.toList.map Char.toLower⟩

/-- Rust `str::starts_with` for a string pattern. -/
def startsWithS (s pre : String) : Bool :=
  pre.toList.isPrefixOf s.toList

/-- Rust `str::ends_with` for a string pattern. -/
def endsWithS (s suf : String) : Bool :=
  suf.toList.reverse.isPrefixOf s.toList.reverse

/-- Rust `str::contains` for a `char` pattern. -/
def containsC (s : String) (c : Char) : Bool :=
  s.toList.any (fun x => x == c)

/-- All suffixes of a list, longest first. -/
def suffixes : List Char → List (List Char)
  | [] => [[]]
  | c :: cs => (c :: cs) :: suffixes cs

/-- Rust `str::contains` for a string pattern (substring test). -/
def containsSub (s pat : String) : Bool :=
  (suffixes s.toList).any (fun t => pat.toList.isPrefixOf t)

/-- Rust `str::trim_end_matches` for a `char` pattern: strip every
trailing occurrence. -/
def trimEndMatches (c : Char) (s : String) : String :=
  ⟨(s.toList.reverse.dropWhile (fun x => x == c)).reverse⟩

/-- Rust `str::trim_matches` for a `char` pattern: strip every leading
and trailing occurrence. -/
def trimMatches (c : Char) (s : String) : String :=
  ⟨(((s.toList.dropWhile (fun x => x == c)).reverse.dropWhile
      (fun x => x == c)).reverse)⟩

/-- Helper for `splitOnceChar`: split a char list at the first
occurrence of `c`, dropping the separator. -/
def splitOnceAux (c : Char) : List Char → Option (List Char × List Char)
  | [] => none
  | x :: xs =>
    if x == c then some ([], xs)
    else (splitOnceAux c xs).map (fun p => (x :: p.1, p.2))

/-- Rust `str::split_once(c)` (also the observable behaviour of
`splitn(2, c)` when it yields two pieces): split at the first
occurrence of `c`, or `none` when `c` does not occur. -/
def splitOnceChar (c : Char) (s : String) : Option (String × String) :=
  (splitOnceAux c s.toList).map (fun p => ((⟨p.1⟩ : String), (⟨p.2⟩ : String)))

/-- Rust `usize::from_str`: optional leading `+`, then at least one
ASCII digit, rejecting values that overflow 64 bits. -/
def parseUsize (s : String) : Option Nat :=
  let l := if startsWithS s "+" then s.toList.drop 1 else s.toList
  if l.isEmpty then none
  else if l.all Char.isDigit then
    let v := l.foldl (fun n c => n * 10 + (c.toNat - 48)) 0
    if v < 18446744073709551616 then some v else none
  else none

/-- Association-list embedding of `HashMap::insert`: replace the value
of an existing key, otherwise append the new binding. -/
def insertA {α : Type} (m : List (String × α)) (k : String) (v : α) :
    List (String × α) :=
  if m.any (fun p => p.1 == k) then
    m.map (fun p => if p.1 == k then (k, v) else p)
  else m ++ [(k, v)]

/-- Association-list embedding of `HashMap::get`. -/
def lookupA {α : Type} (m : List (String × α)) (k : String) : Option α :=
  (m.find? (fun p => p.1 == k)).map (fun p => p.2)

/-- Enum `Types` from `utils.rs`. -/
inductive Types where
  | Gene
  | Transcript
  | Exon
  | CDS
  | UTR
  | Intron
  | Intergenic
  | Other
  | Unknown
  deriving DecidableEq

/-- Rendering of `Display for Types` from `utils.rs`. -/
def Types.toStr : Types → String
  | .Gene => "gene"
  | .Transcript => "transcript"
  | .Exon => "exon"
  | .CDS => "CDS"
  | .UTR => "UTR"
  | .Intron => "intron"
  | .Intergenic => "intergenic"
  | .Other => "other"
  | .Unknown => "unknown"

/-- Function `extract_attributes` from `utils.rs`: split the attribute column on
`;`, trim each piece, drop empty pieces, then in GFF dialect split each
pair at the first `=` (key lower-cased, value kept verbatim) and in GTF
dialect split each pair at the first space (`splitn(2, ' ')`) with the
value stripped of surrounding `"` via `trim_matches`.  Pairs that do
not split are dropped silently. -/
def extract_attributes (attr_str : String) (is_gff : Bool) :
    List (String × String) :=
  let pairs := (((ssplit ';' attr_str).map rtrim).filter
    (fun s => !s.toList.isEmpty))
  if is_gff then
    pairs.foldl (fun m pair =>
      match splitOnceChar '=' pair with
      | some (k, v) => insertA m (lowerS k) v
      | none => m) []
  else
    pairs.foldl (fun m pair =>
      match splitOnceChar ' ' pair with
      | some (k, v) => insertA m (lowerS k) (trimMatches '"' v)
      | none => m) []

/-- Function `extract_id` from `utils.rs`. -/
def extract_id (attrs : List (String × String)) (feature_type : Types)
    (is_gff : Bool) : Option String :=
  if is_gff then
    match lookupA attrs "id" with
    | some i => some i
    | none => none
  else
    let id_key : Option String :=
      match feature_type with
      | .Gene => some "gene_id"
      | .Transcript => some "transcript_id"
      | _ => none
    match id_key with
    | some key =>
      match lookupA attrs key with
      | some i => some i
      | none => none
    | none => none

/-- Function `extract_parent_id` from `utils.rs`. -/
def extract_parent_id (attrs : List (String × String))
    (feature_type : Types) (is_gff : Bool) : Option String :=
  if is_gff then
    match lookupA attrs "parent" with
    | some p => some p
    | none => none
  else
    let parent_id_key : Option String :=
      match feature_type with
      | .Gene => none
      | .Transcript => some "gene_id"
      | .Exon => some "transcript_id"
      | .CDS => some "transcript_id"
      | .Intron => some "transcript_id"
      | .UTR => some "transcript_id"
      | _ => some "transcript_id"
    match parent_id_key with
    | some key =>
      match lookupA attrs key with
      | some p => some p
      | none => none
    | none => none

/-- Function `attr_is_gff` from `utils.rs`: trim, strip trailing `;`, split on
`;`, trim pieces; GFF when some piece starts with `ID=` or `Parent=`
and every piece contains `=`; else GTF when every piece contains
a space-quote and ends with `"`; otherwise an error. -/
def attr_is_gff (attrs : String) : RResult Bool :=
  let attrs_vec := ((ssplit ';' (trimEndMatches ';' (rtrim attrs))).map rtrim)
  let isGff :=
    attrs_vec.any (fun a => startsWithS a "ID=" || startsWithS a "Parent=")
      && attrs_vec.all (fun a => containsC a '=')
  if isGff then .ok true
  else
    let isGtf := attrs_vec.all (fun a => containsSub a " \"" && endsWithS a "\"")
    if isGtf then .ok false
    else .error "Cannot determine format"

/-- Struct `GffObject` from `object.rs` (fields `seqid`, `strand`, `source`,
`g_type`, `g_id`, `g_parent_id`, `attrs`, `extra_attrs`, and the
interval endpoints of `interval : Interval<usize>`).

Modelled from the spec: the additional fields `id`, `id_str`,
`parent_id_str` and `children` are referenced by `group.rs`
(`add_object`, `finalize`) but are absent from the `GffObject` struct
in `src/src/object.rs`; they are taken from the spec's FeatureRecord
(§3): `id` is the `arena_index`, `id_str`/`parent_id_str` are the
resolved `identity`/`parent_identity`, and `children` is the ordered
sequence of arena indices the Hierarchy Engine appends to.  The raw
parent back-pointer of `object.rs` is not modelled (spec §9 prescribes
index-based parent resolution). -/
structure GffObject where
  seqid : String
  strand : Char
  source : String
  g_type : Types
  g_id : Option String
  g_parent_id : Option String
  attrs : List (String × String)
  extra_attrs : List (String × String)
  intervalStart : Nat
  intervalEnd : Nat
  id : Option Nat
  id_str : Option String
  parent_id_str : Option String
  children : List Nat
  deriving DecidableEq

/-- Impl `Default for GffObject` from `object.rs`: empty seqid, source
`"GANLIB"`, type `Unknown`, strand `'.'`, empty maps, interval `0..0`,
no parent/child links. -/
def GffObject.default : GffObject :=
  { seqid := ""
    strand := '.'
    source := "GANLIB"
    g_type := .Unknown
    g_id := none
    g_parent_id := none
    attrs := []
    extra_attrs := []
    intervalStart := 0
    intervalEnd := 0
    id := none
    id_str := none
    parent_id_str := none
    children := [] }

/-- The feature-type match of `TryFrom<&str> for GffObject` on the
lower-cased third column. -/
def typesOfString (s : String) : Types :=
  match lowerS s with
  | "gene" => .Gene
  | "transcript" => .Transcript
  | "mrna" => .Transcript
  | "exon" => .Exon
  | "cds" => .CDS
  | "utr" => .UTR
  | "intron" => .Intron
  | "intergenic" => .Intergenic
  | _ => .Unknown

/-- Impl `TryFrom<&str> for GffObject` from `object.rs`, parameterised by
the attribute tokenizer and the identity resolver it calls (the
one-argument `extract_attributes` and `extract_ids` used there are not
among the definitions of `src/src/utils.rs`).  Split the line on tabs;
with other than 9 columns return the typed error carrying the line;
otherwise `lcs[3].parse::<usize>().unwrap()` and
`lcs[4].parse::<usize>().unwrap()` panic on unparsable coordinates,
`Interval::new(start..end).unwrap()` panics when `start > end`, and
`lcs[6].chars().next().unwrap()` panics on an empty strand column while
accepting any first character unvalidated. -/
def gffObjectTryFromWith (extract : String → List (String × String))
    (ids : List (String × String) → Types → Option String × Option String)
    (line : String) : ParseOutcome GffObject :=
  let lcs := ssplit '\t' line
  if lcs.length ≠ 9 then
    .err ("Invalid number of columns in GFF/GTF line: " ++ line)
  else
    match parseUsize (lcs.getD 3 ""), parseUsize (lcs.getD 4 "") with
    | some s, some e =>
      if s > e then .panicked
      else
        match (lcs.getD 6 "").toList with
        | [] => .panicked
        | c :: _ =>
          let gt := typesOfString (lcs.getD 2 "")
          let attrs := extract (lcs.getD 8 "")
          let idp := ids attrs gt
          .ok { GffObject.default with
                seqid := lcs.getD 0 ""
                source := lcs.getD 1 ""
                intervalStart := s
                intervalEnd := e
                strand := c
                g_type := gt
                attrs := attrs
                g_id := idp.1
                g_parent_id := idp.2
                extra_attrs := [("record_source", lcs.getD 2 "")] }
    | _, _ => .panicked

/-- Modelled from the spec: the one-argument `extract_attributes`
called by `object.rs` is not among the definitions of
`src/src/utils.rs` (which only has the two-argument dialect-flagged
version).  Following the codec of spec §4.1 without a dialect flag: a
`;`-separated, trimmed, non-empty pair containing `=` is parsed by the
GFF rule (split at the first `=`, key lower-cased, value verbatim) and
otherwise by the GTF rule (split at the first space, key lower-cased,
surrounding `"` stripped); malformed pairs are dropped silently. -/
def extract_attributes_line (attr_str : String) : List (String × String) :=
  let pairs := (((ssplit ';' attr_str).map rtrim).filter
    (fun s => !s.toList.isEmpty))
  pairs.foldl (fun m pair =>
    if containsC pair '=' then
      match splitOnceChar '=' pair with
      | some (k, v) => insertA m (lowerS k) v
      | none => m
    else
      match splitOnceChar ' ' pair with
      | some (k, v) => insertA m (lowerS k) (trimMatches '"' v)
      | none => m) []

/-- Modelled from the spec: the `extract_ids` called by `object.rs` is
not among the definitions of `src/src/utils.rs`.  Following the
identity/parent rule table of spec §4.1 with the two dialect columns
merged (GFF `id`/`parent` keys take precedence, then the
feature-type-specific GTF keys). -/
def extract_ids (attrs : List (String × String)) (t : Types) :
    Option String × Option String :=
  let gtfId : Option String :=
    match t with
    | .Gene => lookupA attrs "gene_id"
    | .Transcript => lookupA attrs "transcript_id"
    | _ => none
  let gtfParent : Option String :=
    match t with
    | .Gene => none
    | .Transcript => lookupA attrs "gene_id"
    | _ => lookupA attrs "transcript_id"
  ((lookupA attrs "id").orElse (fun _ => gtfId),
   (lookupA attrs "parent").orElse (fun _ => gtfParent))

/-- Function `GffObject::new` (`TryFrom<&str>`) with its attribute helpers
instantiated. -/
def gffObjectTryFrom (line : String) : ParseOutcome GffObject :=
  gffObjectTryFromWith extract_attributes_line extract_ids line

/-- True when `TryFrom<&str> for GffObject` produced a record. -/
def ParseOutcome.isOkB {α : Type} : ParseOutcome α → Bool
  | .ok _ => true
  | _ => false

/-- The situations in which `TryFrom<&str> for GffObject` panics via
`unwrap`: 9 columns but an unparsable start or end coordinate, or
`start > end`, or an empty strand column. -/
def malformedPanics (line : String) : Bool :=
  (ssplit '\t' line).length == 9 &&
    (match parseUsize ((ssplit '\t' line).getD 3 ""),
           parseUsize ((ssplit '\t' line).getD 4 "") with
     | some s, some e =>
        decide (s > e) || ((ssplit '\t' line).getD 6 "").toList.isEmpty
     | _, _ => true)

/-- Struct `Exon` from `exon.rs` (fields `seqid`, `strand`, `interval`,
`source`, `tid`, `gid`, `attrs`, `extra_attrs`, `obj_type`). -/
structure Exon where
  seqid : String
  strand : Char
  intervalStart : Nat
  intervalEnd : Nat
  source : String
  tid : Option String
  gid : Option String
  attrs : List (String × String)
  extra_attrs : List (String × String)
  obj_type : Types
  deriving DecidableEq

/-- Impl `From<GffObject> for Exon` from `exon.rs`: copy the scalar fields
and the attribute map, store `Types::Exon` as the object type, then
extract `tid`/`gid` from the `transcript_id`/`gene_id` attributes. -/
def Exon.fromGffObject (g : GffObject) : Exon :=
  { seqid := g.seqid
    strand := g.strand
    intervalStart := g.intervalStart
    intervalEnd := g.intervalEnd
    source := g.source
    obj_type := .Exon
    attrs := g.attrs
    extra_attrs := []
    tid := lookupA g.attrs "transcript_id"
    gid := lookupA g.attrs "gene_id" }

/-- Method `Exon::get_type` from the `GffObjectT` impl in `exon.rs`: it
returns `Types::Transcript`, ignoring the stored `obj_type`. -/
def Exon.get_type (_e : Exon) : Types :=
  Types.Transcript

/-- GTF attribute-column rendering `k "v"; ...` shared by the `gtf`
methods. -/
def gtfAttrsString (attrs : List (String × String)) : String :=
  String.intercalate " "
    (attrs.map (fun p => p.1 ++ " \"" ++ p.2 ++ "\";"))

/-- Method `Exon::gtf` from `exon.rs`: tab-joined 9 columns using the stored
`obj_type` for the type column.  `score()`/`phase()` are the trait
defaults returning `None`, so `unwrap_or(0.0)`/`unwrap_or(0)` always
render as `"0"`. -/
def Exon.gtf (e : Exon) : String :=
  String.intercalate "\t"
    [e.seqid, e.source, e.obj_type.toStr, toString e.intervalStart,
     toString e.intervalEnd, "0", String.mk [e.strand], "0",
     gtfAttrsString e.attrs]

/-- Method `STReader::_set_gff` from `treader.rs`, over the file's line list:
skip `#`-prefixed lines; on any other line, trim and split on tabs;
with other than 9 columns, or a type column outside
`["transcript", "exon", "CDS"]` (compared exactly), classification
fails; an `exon`/`CDS` line is skipped; at a `transcript` line the file
is GFF when column 9 starts with `ID=`, GTF when it starts with
`transcript_id`, and classification fails otherwise; it also fails at
end of input.  `none` is the `Err("Unable to determine file format")`
outcome. -/
def set_gff : List String → Option Bool
  | [] => none
  | line :: rest =>
    if startsWithS line "#" then set_gff rest
    else
      let lcs := ssplit '\t' (rtrim line)
      if lcs.length ≠ 9 then none
      else if !(["transcript", "exon", "CDS"].contains (lcs.getD 2 "")) then
        none
      else if lcs.getD 2 "" == "transcript" then
        (if startsWithS (lcs.getD 8 "") "ID=" then some true
         else if startsWithS (lcs.getD 8 "") "transcript_id" then some false
         else none)
      else set_gff rest

/-- A line the scan of `set_gff` steps over without deciding: a
comment, or a well-formed 9-column `exon`/`CDS` line. -/
def skippableLine (line : String) : Bool :=
  startsWithS line "#" ||
    ((ssplit '\t' (rtrim line)).length == 9 &&
      ((ssplit '\t' (rtrim line)).getD 2 "" == "exon" ||
        (ssplit '\t' (rtrim line)).getD 2 "" == "CDS"))

/-- The decision `set_gff` takes at the first non-skippable line. -/
def classifyDecisive (line : String) : Option Bool :=
  if (ssplit '\t' (rtrim line)).length == 9 &&
      (ssplit '\t' (rtrim line)).getD 2 "" == "transcript" then
    (if startsWithS ((ssplit '\t' (rtrim line)).getD 8 "") "ID=" then some true
     else if startsWithS ((ssplit '\t' (rtrim line)).getD 8 "") "transcript_id" then
       some false
     else none)
  else none

/-- Format classification as described by the amended claim C3: scan
past comment lines and well-formed `exon`/`CDS` lines; the first other
line decides — it classifies GFF/GTF only when it is a 9-column line
whose type column is exactly `transcript` and whose attribute column
starts with `ID=` (GFF) or `transcript_id` (GTF); everything else,
including exhaustion of the input, fails. -/
def set_gff_amended (lines : List String) : Option Bool :=
  match lines.find? (fun l => !skippableLine l) with
  | none => none
  | some l => classifyDecisive l

/-- The pair parser described by the amended claim C8: in GFF dialect a
pair containing `=` splits at the first `=` (key lower-cased, value
verbatim); in GTF dialect a pair containing a space splits at the first
space character (key lower-cased, surrounding `"` stripped from the
value); other pairs are malformed. -/
def claimPairParse : Bool → String → Option (String × String)
  | true, pair =>
    if pair.toList.any (fun x => x == '=') then
      some (lowerS ⟨pair.toList.takeWhile (fun x => x != '=')⟩,
        ⟨(pair.toList.dropWhile (fun x => x != '=')).drop 1⟩)
    else none
  | false, pair =>
    if pair.toList.any (fun x => x == ' ') then
      some (lowerS ⟨pair.toList.takeWhile (fun x => x != ' ')⟩,
        trimMatches '"' ⟨(pair.toList.dropWhile (fun x => x != ' ')).drop 1⟩)
    else none

/-- The attribute codec described by the amended claim C8: split on
`;`, trim each piece, drop blank pieces, parse each remaining pair with
`claimPairParse`, silently dropping malformed pairs, accumulating
last-write-wins bindings. -/
def extract_attributes_amended (attr_str : String) (d : Bool) :
    List (String × String) :=
  (((ssplit ';' attr_str).map rtrim).filter
      (fun s => !s.toList.isEmpty)).foldl
    (fun m pair =>
      match claimPairParse d pair with
      | some (k, v) => insertA m k v
      | none => m) []

/-- Impl `Iterator for STReader` from `treader.rs`, over the remaining line
list: return the first line that does not start with `#` together with
the lines after it; blank lines are not filtered. -/
def stReaderNext : List String → Option (String × List String)
  | [] => none
  | l :: rest =>
    if startsWithS l "#" then stReaderNext rest else some (l, rest)

/-- Observable outcome of one `TReader::next` call: a parsed record, a
`panic!` (raised on any parse failure), or stream exhaustion
(`None`). -/
inductive TNext where
  | yielded (obj : GffObject)
  | panicked
  | exhausted
  deriving DecidableEq

/-- Impl `Iterator for TReader` from `treader.rs`, over the per-file
remaining line lists: take the first file whose `STReader` still yields
a line, parse that line with `GffObject::new`, yield the record on
success and `panic!` on a parse error; when every file is exhausted the
stream ends.  Returns the outcome together with the new reader
states. -/
def tReaderNext : List (List String) → TNext × List (List String)
  | [] => (.exhausted, [])
  | r :: rs =>
    match stReaderNext r with
    | some (l, r2) =>
      (match gffObjectTryFrom l with
       | .ok o => .yielded o
       | _ => .panicked,
       r2 :: rs)
    | none =>
      let p := tReaderNext rs
      (p.1, [] :: p.2)

/-- The line a `TReader::next` call will surface: the first
non-`#`-prefixed line of the first file still having one. -/
def firstDataLine : List (List String) → Option String
  | [] => none
  | r :: rs =>
    match stReaderNext r with
    | some (l, _) => some l
    | none => firstDataLine rs

/-- Struct `Transcriptome` from `group.rs`: the arena of objects, the
`identity → index` map, and the staleness flag of the interval
index. -/
structure Transcriptome where
  objects : List GffObject
  id_map : List (String × Nat)
  is_indexed : Bool
  deriving DecidableEq

/-- Method `Transcriptome::add_object` from `group.rs`: clear the indexed
flag, insert the object, assign its `id` to the insertion index, and
register `id_str → index` when an identity is present.

Modelled from the spec: `ArrayBackedIntervalTree::insert` is provided
by the (modified) `bio` dependency, not by `src/`; spec §4.3 specifies
`insert(record) -> index` as appending the record to the arena and
returning its position. -/
def Transcriptome.add_object (t : Transcriptome) (obj : GffObject) :
    Transcriptome × Nat :=
  let oid := t.objects.length
  let objs := t.objects ++ [{ obj with id := some oid }]
  let idm :=
    match obj.id_str with
    | some s => insertA t.id_map s oid
    | none => t.id_map
  ({ objects := objs, id_map := idm, is_indexed := false }, oid)

/-- Method `Transcriptome::get` from `group.rs` (position lookup in the
arena). -/
def Transcriptome.get (t : Transcriptome) (oid : Nat) : Option GffObject :=
  t.objects.get? oid

/-- Method `Transcriptome::index` from `group.rs`: build the interval index
and set `is_indexed`.

Modelled from the spec: `ArrayBackedIntervalTree::index` is provided by
the (modified) `bio` dependency, not by `src/`; by the spec's arena
invariant (§3: a record with `arena_index = Some(i)` lives at position
`i` and is never relocated) building the interval index leaves the
arena positions unchanged. -/
def Transcriptome.index (t : Transcriptome) : Transcriptome :=
  { t with is_indexed := true }

/-- Method `Transcriptome::reset_intervals` from `group.rs`: the function body
consists only of comments (stating that every parent's interval should
be recomputed from its children and propagated upward) and performs no
mutation at all. -/
def Transcriptome.reset_intervals (t : Transcriptome) : Transcriptome :=
  t

/-- Modelled from the spec: `GffObject::add_child`, called by
`Transcriptome::finalize`, is not defined anywhere in `src/`; spec §4.4
(apply pass) appends the child's arena index to the parent's `children`
sequence. -/
def GffObject.add_child (parent child : GffObject) : GffObject :=
  { parent with children := parent.children ++ child.id.toList }

/-- Collect pass of `Transcriptome::finalize` from `group.rs`: walk the
arena in order; an object without an assigned `id` aborts with an
error; an object whose `parent_id_str` is present and resolves through
`id_map` contributes the edge `(parent index, object)`; an object whose
`parent_id_str` does not resolve contributes nothing (the `TODO` block
in the source is empty). -/
def collectUpdates (idm : List (String × Nat)) :
    List GffObject → RResult (List (Nat × GffObject))
  | [] => .ok []
  | obj :: rest =>
    if obj.id.isNone then .error "Object does not have an ID assigned"
    else
      let here : List (Nat × GffObject) :=
        match obj.parent_id_str with
        | some p =>
          match lookupA idm p with
          | some poid => [(poid, obj)]
          | none => []
        | none => []
      match collectUpdates idm rest with
      | .ok tail => .ok (here ++ tail)
      | .error e => .error e

/-- Apply pass of `Transcriptome::finalize` from `group.rs`: for each
collected edge in order, fetch the parent by index and append the child
through `add_child`; a missing parent index aborts with an error. -/
def applyUpdates (objs : List GffObject) :
    List (Nat × GffObject) → RResult (List GffObject)
  | [] => .ok objs
  | (pid, child) :: rest =>
    match objs.get? pid with
    | some parentObj => applyUpdates (objs.set pid (parentObj.add_child child)) rest
    | none => .error "Parent object not found"

/-- Method `Transcriptome::finalize` from `group.rs`: the collect pass over
the arena followed by the apply pass; the result is `Ok` with the
updated store, or the first error.  No other information is
returned. -/
def Transcriptome.finalize (t : Transcriptome) : RResult Transcriptome :=
  match collectUpdates t.id_map t.objects with
  | .error e => .error e
  | .ok updates =>
    match applyUpdates t.objects updates with
    | .error e => .error e
    | .ok objs => .ok { t with objects := objs }

/-- One mutating store operation, for stating stability of arena
positions under every subsequent operation sequence. -/
inductive StoreOp where
  | addObj (obj : GffObject)
  | buildIndex

/-- Run one store operation. -/
def applyOp (t : Transcriptome) : StoreOp → Transcriptome
  | .addObj o => (t.add_object o).1
  | .buildIndex => t.index

/-- Run a sequence of store operations. -/
def applyOps (t : Transcriptome) (ops : List StoreOp) : Transcriptome :=
  ops.foldl applyOp t

def exonSourceCex : GffObject :=
  { GffObject.default with
    seqid := "chr1", source := "test", g_type := .Exon,
    intervalStart := 11869, intervalEnd := 12227, strand := '+',
    attrs := [("gene_id", "g1"), ("transcript_id", "t1")] }

def resetParentCex : GffObject :=
  { GffObject.default with
    intervalStart := 1, intervalEnd := 1, id := some 0,
    id_str := some "t1", children := [1] }

def resetChildCex : GffObject :=
  { GffObject.default with
    intervalStart := 10, intervalEnd := 20, id := some 1,
    parent_id_str := some "t1" }

def resetStoreCex : Transcriptome :=
  { objects := [resetParentCex, resetChildCex],
    id_map := [("t1", 0)], is_indexed := false }

def danglingStore : Transcriptome :=
  { objects :=
      [{ GffObject.default with id := some 0, id_str := some "t1" },
       { GffObject.default with id := some 1, parent_id_str := some "missing" }],
    id_map := [("t1", 0)], is_indexed := false }

def cleanStore : Transcriptome :=
  { objects :=
      [{ GffObject.default with id := some 0, id_str := some "t1" },
       { GffObject.default with id := some 1 }],
    id_map := [("t1", 0)], is_indexed := false }

def c3Line : String := "chr1\tsrc\ttranscript\t1\t100\t.\t+\t.\tParent=t0"

def c4StrandLine : String := "chr1\tsrc\tgene\t1\t100\t.\tx\t.\tID=g1"

def c4StrandRecord : GffObject :=
  { GffObject.default with
    seqid := "chr1", source := "src", intervalStart := 1, intervalEnd := 100,
    strand := 'x', g_type := .Gene, attrs := [("id", "g1")],
    g_id := some "g1", extra_attrs := [("record_source", "gene")] }

def c5Line : String := "chr1\tsrc\texon\t1\t100\t.\t+\t.\tgarbage"

def c5Record : GffObject :=
  { GffObject.default with
    seqid := "chr1", source := "src", intervalStart := 1, intervalEnd := 100,
    strand := '+', g_type := .Exon, attrs := [],
    extra_attrs := [("record_source", "exon")] }

theorem matchOptionId {α : Type} (o : Option α) :
    (match o with | some x => some x | none => none) = o := by
  cases o <;> rfl

/-- Claim C9: identity and parent identity follow the (feature type, dialect)
rule table: in GFF dialect identity is taken from key `id` and parent identity
from key `parent` for every feature type; in GTF dialect identity comes from
`gene_id` for genes and `transcript_id` for transcripts and is absent for
exon/CDS/UTR/intron, while parent identity is absent for genes, comes from
`gene_id` for transcripts and from `transcript_id` for exon/CDS/UTR/intron. -/
theorem extract_ids_rule_table :
    ∀ (attrs : List (String × String)) (t : Types),
      extract_id attrs t true = lookupA attrs "id"
      ∧ extract_parent_id attrs t true = lookupA attrs "parent"
      ∧ extract_id attrs .Gene false = lookupA attrs "gene_id"
      ∧ extract_id attrs .Transcript false = lookupA attrs "transcript_id"
      ∧ extract_id attrs .Exon false = none
      ∧ extract_id attrs .CDS false = none
      ∧ extract_id attrs .UTR false = none
      ∧ extract_id attrs .Intron false = none
      ∧ extract_parent_id attrs .Gene false = none
      ∧ extract_parent_id attrs .Transcript false = lookupA attrs "gene_id"
      ∧ extract_parent_id attrs .Exon false = lookupA attrs "transcript_id"
      ∧ extract_parent_id attrs .CDS false = lookupA attrs "transcript_id"
      ∧ extract_parent_id attrs .UTR false = lookupA attrs "transcript_id"
      ∧ extract_parent_id attrs .Intron false = lookupA attrs "transcript_id" := by
  intro attrs t
  refine ⟨?_, ?_, ?_, ?_, rfl, rfl, rfl, rfl, rfl, ?_, ?_, ?_, ?_, ?_⟩
  · cases h : lookupA attrs "id" <;> simp [extract_id, h]
  · cases h : lookupA attrs "parent" <;> simp [extract_parent_id, h]
  · cases h : lookupA attrs "gene_id" <;> simp [extract_id, h]
  · cases h : lookupA attrs "transcript_id" <;> simp [extract_id, h]
  · cases h : lookupA attrs "gene_id" <;> simp [extract_parent_id, h]
  · cases h : lookupA attrs "transcript_id" <;> simp [extract_parent_id, h]
  · cases h : lookupA attrs "transcript_id" <;> simp [extract_parent_id, h]
  · cases h : lookupA attrs "transcript_id" <;> simp [extract_parent_id, h]
  · cases h : lookupA attrs "transcript_id" <;> simp [extract_parent_id, h]

/-- Claim C10: for every `Exon`, the public `get_type` returns
`Types.Transcript`, while the internally stored object type (used when
rendering GTF text) is `Types.Exon` — the reported feature type disagrees with
both the construction and the serialized form, whose type column reads
`exon`. -/
theorem exon_get_type_mismatch :
    (∀ g : GffObject,
      (Exon.fromGffObject g).get_type = Types.Transcript
      ∧ (Exon.fromGffObject g).obj_type = Types.Exon
      ∧ ((Exon.fromGffObject g).obj_type).toStr = "exon"
      ∧ (Exon.fromGffObject g).get_type ≠ (Exon.fromGffObject g).obj_type)
    ∧ ((ssplit '\t' (Exon.fromGffObject exonSourceCex).gtf).getD 2 "") = "exon"
    ∧ ((ssplit '\t' (Exon.fromGffObject exonSourceCex).gtf).getD 2 "")
        ≠ ((Exon.fromGffObject exonSourceCex).get_type).toStr := by
  refine ⟨fun g => ⟨rfl, rfl, rfl, fun h => Types.noConfusion h⟩, ?_, ?_⟩ <;> decide

/-- Claim C2 (code bug): `reset_intervals` is a no-op — its body holds only
comments — so on the witness store the parent record's interval stays `[1,1]`
and does not span its child's `[10,20]`, although the function's own comments
(and the spec) demand recomputing it to `[min(child.start), max(child.end)]`
with upward propagation. -/
theorem reset_intervals_noop :
    (∀ t : Transcriptome, t.reset_intervals = t)
    ∧ ((resetStoreCex.reset_intervals).objects.getD 0 GffObject.default).children = [1]
    ∧ ((resetStoreCex.reset_intervals).objects.getD 0 GffObject.default).intervalStart = 1
    ∧ ((resetStoreCex.reset_intervals).objects.getD 0 GffObject.default).intervalEnd = 1
    ∧ ((resetStoreCex.reset_intervals).objects.getD 1 GffObject.default).intervalStart = 10
    ∧ ((resetStoreCex.reset_intervals).objects.getD 1 GffObject.default).intervalEnd = 20 := by
  exact ⟨fun t => rfl, rfl, rfl, rfl, rfl, rfl⟩

/-- Counterexample to claim C1: `finalize` on a store with a record whose
`parent_id_str` resolves to no stored identity returns plain `Ok` with the
store unchanged — the same outcome as for the store without the dangling
reference: no dangling-parent entry is collected or returned anywhere. -/
theorem finalize_dangling_counterexample :
    danglingStore.finalize = RResult.ok danglingStore
    ∧ cleanStore.finalize = RResult.ok cleanStore
    ∧ (danglingStore.objects.getD 1 GffObject.default).parent_id_str = some "missing"
    ∧ lookupA danglingStore.id_map "missing" = none
    ∧ danglingStore.objects.length = 2 := by
  refine ⟨?_, ?_, ?_, ?_, ?_⟩ <;> decide

/-- Counterexample to claim C3: a 9-column `transcript` line whose attribute
column is `Parent=t0` is classified GFF by the claim's rule (and by
`attr_is_gff`), yet `set_gff` fails on it, because column 9 starts with
neither `ID=` nor `transcript_id`. -/
theorem set_gff_parent_counterexample :
    set_gff [c3Line] = none
    ∧ attr_is_gff "Parent=t0" = RResult.ok true
    ∧ (ssplit '\t' (rtrim c3Line)).length = 9
    ∧ lowerS ((ssplit '\t' (rtrim c3Line)).getD 2 "") = "transcript"
    ∧ containsSub ((ssplit '\t' (rtrim c3Line)).getD 8 "") "Parent=" = true := by
  refine ⟨?_, ?_, ?_, ?_, ?_⟩ <;> decide

/-- Counterexample to claim C4: a 9-column line with strand column `x` — not
one of `+`, `-`, `.` — parses into a record instead of returning an error,
while an unparsable coordinate, or `start > end`, panics rather than
returning a typed error. -/
theorem try_from_invalid_strand_counterexample :
    gffObjectTryFrom c4StrandLine = .ok c4StrandRecord
    ∧ c4StrandRecord.strand = 'x'
    ∧ ('x' == '+' || 'x' == '-' || 'x' == '.') = false
    ∧ gffObjectTryFrom "chr1\tsrc\tgene\tBAD\t100\t.\t+\t.\tID=g1" = .panicked
    ∧ gffObjectTryFrom "chr1\tsrc\tgene\t100\t1\t.\t+\t.\tID=g1" = .panicked := by
  refine ⟨?_, ?_, ?_, ?_, ?_⟩ <;> decide

/-- Counterexample to claim C5: a 9-column non-Intergenic (`exon`) line whose
attribute column `garbage` yields no key-value pair is accepted, producing a
record with an empty attribute mapping — not an error. -/
theorem try_from_empty_attrs_counterexample :
    gffObjectTryFrom c5Line = .ok c5Record
    ∧ c5Record.attrs = []
    ∧ c5Record.g_type ≠ Types.Intergenic := by
  refine ⟨?_, ?_, ?_⟩ <;> decide

/-- Counterexample to claim C7: `STReader` surfaces a blank line (only
`#`-prefixed lines are filtered), and `TReader::next` on a file holding just a
blank line panics — it neither yields a record nor ends the stream. -/
theorem treader_blank_line_counterexample :
    stReaderNext ["#comment", "", "x"] = some ("", ["x"])
    ∧ startsWithS "" "#" = false
    ∧ (tReaderNext [[""]]).1 = TNext.panicked := by
  refine ⟨?_, ?_, ?_⟩ <;> decide

/-- Counterexample to claim C8: in GTF dialect a pair is split at the first
space character, not at the first whitespace: a pair whose key and value are
separated by a tab (which is whitespace but not a space) is dropped as
malformed, yielding the empty mapping instead of the claimed binding. -/
theorem extract_attributes_tab_counterexample :
    extract_attributes "k\tv" false = []
    ∧ Char.isWhitespace '\t' = true
    ∧ containsC "k\tv" ' ' = false
    ∧ rtrim "k\tv" = "k\tv" := by
  refine ⟨?_, ?_, ?_, ?_⟩ <;> decide

/-- Claim C1 as amended: the collect pass of `finalize` errors only when some
record lacks an assigned arena id; otherwise it returns exactly the edges of
the records whose `parent_id_str` resolves through the identity map — a record
with a dangling parent identity contributes nothing, is reported nowhere (the
pass has no other output), and does not interrupt the processing of the
remaining records. -/
theorem finalize_collect_silent_skip :
    ∀ (idm : List (String × Nat)) (objs : List GffObject),
      collectUpdates idm objs =
        (if objs.all (fun o => o.id.isSome) then
          RResult.ok (objs.filterMap (fun o =>
            (o.parent_id_str.bind (fun p => lookupA idm p)).map (fun j => (j, o))))
        else RResult.error "Object does not have an ID assigned") := by
  intro idm objs
  induction objs with
  | nil => rfl
  | cons o rest ih =>
    cases hid : o.id with
    | none => simp [collectUpdates, hid]
    | some n =>
      by_cases hall : rest.all (fun o => o.id.isSome)
      · simp only [collectUpdates, hid, Option.isNone_some, Bool.false_eq_true,
          if_false, ih, hall, if_true, List.all_cons, Option.isSome_some,
          Bool.true_and, List.filterMap_cons]
        cases hp : o.parent_id_str with
        | none => simp
        | some p => cases hl : lookupA idm p <;> simp [hl, Option.bind]
      · simp only [collectUpdates, hid, Option.isNone_some, Bool.false_eq_true,
          if_false, ih, hall, List.all_cons, Option.isSome_some, Bool.true_and]

theorem applyOp_preserves (t : Transcriptome) (op : StoreOp) (j : Nat)
    (r : GffObject) (h : t.objects.get? j = some r) :
    (applyOp t op).objects.get? j = some r := by
  cases op with
  | buildIndex => exact h
  | addObj o =>
    have hj : j < t.objects.length := by
      by_contra hcon
      push_neg at hcon
      rw [List.get?_eq_none.mpr hcon] at h
      cases h
    simp only [applyOp, Transcriptome.add_object]
    rw [List.get?_append hj]
    exact h

theorem applyOps_preserves :
    ∀ (ops : List StoreOp) (t : Transcriptome) (j : Nat) (r : GffObject),
      t.objects.get? j = some r → (applyOps t ops).objects.get? j = some r := by
  intro ops
  induction ops with
  | nil => intro t j r h; exact h
  | cons op rest ih =>
    intro t j r h
    exact ih (applyOp t op) j r (applyOp_preserves t op j r h)

/-- Claim C6: `add_object` returns the index `i` at the end of the arena, the
stored record has its arena id set to `some i`, retrieving index `i` returns
that same record, and the record stays at position `i` under every subsequent
sequence of store operations — further insertions and interval-index
builds. -/
theorem add_object_stable_index :
    ∀ (t : Transcriptome) (obj : GffObject) (ops : List StoreOp),
      (t.add_object obj).2 = t.objects.length
      ∧ (t.add_object obj).1.get (t.add_object obj).2
          = some { obj with id := some (t.add_object obj).2 }
      ∧ (applyOps (t.add_object obj).1 ops).get (t.add_object obj).2
          = some { obj with id := some (t.add_object obj).2 } := by
  intro t obj ops
  have hbase : (t.add_object obj).1.objects.get? t.objects.length
      = some { obj with id := some t.objects.length } := by
    simp only [Transcriptome.add_object]
    exact List.get?_concat_length _ _
  exact ⟨rfl, hbase, applyOps_preserves ops _ _ _ hbase⟩

theorem stReaderNext_not_comment :
    ∀ (lines : List String) (l : String) (rest : List String),
      stReaderNext lines = some (l, rest) → startsWithS l "#" = false := by
  intro lines
  induction lines with
  | nil => intro l r h; cases h
  | cons x xs ih =>
    intro l r h
    by_cases hx : startsWithS x "#" = true
    · rw [stReaderNext, if_pos hx] at h
      exact ih l r h
    · rw [stReaderNext, if_neg hx] at h
      cases h
      simpa using hx

theorem stReaderNext_none_iff :
    ∀ lines : List String,
      stReaderNext lines = none ↔ ∀ l ∈ lines, startsWithS l "#" = true := by
  intro lines
  induction lines with
  | nil => simp [stReaderNext]
  | cons x xs ih =>
    by_cases hx : startsWithS x "#" = true
    · rw [stReaderNext, if_pos hx]
      simp [ih, hx]
    · rw [stReaderNext, if_neg hx]
      simp only [List.mem_cons]
      constructor
      · intro h; cases h
      · intro h
        exact absurd (h x (Or.inl rfl)) hx

theorem firstDataLine_eq :
    ∀ readers : List (List String),
      (tReaderNext readers).1 =
        (match firstDataLine readers with
         | none => TNext.exhausted
         | some l =>
           match gffObjectTryFrom l with
           | .ok o => TNext.yielded o
           | .err _ => TNext.panicked
           | .panicked => TNext.panicked) := by
  intro readers
  induction readers with
  | nil => rfl
  | cons r rs ih =>
    cases h : stReaderNext r with
    | some p =>
      obtain ⟨l, r2⟩ := p
      simp only [tReaderNext, firstDataLine, h]
      cases gffObjectTryFrom l <;> rfl
    | none =>
      simp only [tReaderNext, firstDataLine, h]
      exact ih

/-- Claim C7 as amended: a `TReader::next` call surfaces the first
non-`#`-prefixed line of the first file that still has one — comment lines
never surface — and the stream is exhausted exactly when every file has only
comment lines left; the surfaced line is parsed, yielding a record on success
and a panic on failure (blank lines, being unfiltered, take the panic
path). -/
theorem treader_next_characterization :
    ∀ readers : List (List String),
      ((tReaderNext readers).1 =
        (match firstDataLine readers with
         | none => TNext.exhausted
         | some l =>
           match gffObjectTryFrom l with
           | .ok o => TNext.yielded o
           | .err _ => TNext.panicked
           | .panicked => TNext.panicked))
      ∧ ((firstDataLine readers).all (fun l => !(startsWithS l "#")) = true)
      ∧ (firstDataLine readers = none
          ↔ ∀ r ∈ readers, ∀ l ∈ r, startsWithS l "#" = true) := by
  intro readers
  refine ⟨firstDataLine_eq readers, ?_, ?_⟩
  · induction readers with
    | nil => rfl
    | cons r rs ih =>
      cases h : stReaderNext r with
      | some p =>
        simp only [firstDataLine, h, Option.all]
        simp [stReaderNext_not_comment r p.1 p.2 (by rw [h])]
      | none =>
        simp only [firstDataLine, h]
        exact ih
  · induction readers with
    | nil => simp [firstDataLine]
    | cons r rs ih =>
      cases h : stReaderNext r with
      | some p =>
        simp only [firstDataLine, h]
        constructor
        · intro hc; cases hc
        · intro hall
          have := (stReaderNext_none_iff r).mpr (hall r (List.mem_cons_self r rs))
          rw [this] at h
          cases h
      | none =>
        simp only [firstDataLine, h, List.mem_cons]
        rw [ih]
        constructor
        · intro hall r' hr' l hl
          cases hr' with
          | inl he => subst he; exact ((stReaderNext_none_iff r').mp h) l hl
          | inr hm => exact hall r' hm l hl
        · intro hall r' hr' l hl
          exact hall r' (Or.inr hr') l hl

theorem containsTEC (x : String) :
    (["transcript", "exon", "CDS"].contains x)
      = (x == "transcript" || x == "exon" || x == "CDS") := by
  cases h1 : x == "transcript" <;> cases h2 : x == "exon" <;>
    cases h3 : x == "CDS" <;> simp [List.contains, List.elem, h1, h2, h3]

theorem skippable_comment {l : String} (h : startsWithS l "#" = true) :
    skippableLine l = true := by
  unfold skippableLine
  rw [h]
  rfl

theorem skippable_type {l : String}
    (h9 : (ssplit '\t' (rtrim l)).length = 9)
    (h : (ssplit '\t' (rtrim l)).getD 2 "" = "exon"
      ∨ (ssplit '\t' (rtrim l)).getD 2 "" = "CDS") :
    skippableLine l = true := by
  unfold skippableLine
  rw [h9]
  cases h with
  | inl he => rw [he]; simp
  | inr hcd => rw [hcd]; simp

theorem not_skippable_len {l : String} (hc : startsWithS l "#" = false)
    (h9 : (ssplit '\t' (rtrim l)).length ≠ 9) :
    skippableLine l = false := by
  unfold skippableLine
  rw [hc, beq_eq_false_iff_ne.mpr h9]
  rfl

theorem not_skippable_type {l : String} (hc : startsWithS l "#" = false)
    (hne : (ssplit '\t' (rtrim l)).getD 2 "" ≠ "exon")
    (hncds : (ssplit '\t' (rtrim l)).getD 2 "" ≠ "CDS") :
    skippableLine l = false := by
  unfold skippableLine
  rw [hc, beq_eq_false_iff_ne.mpr hne, beq_eq_false_iff_ne.mpr hncds]
  simp

theorem classify_of_transcript {l : String}
    (h9 : (ssplit '\t' (rtrim l)).length = 9)
    (ht : (ssplit '\t' (rtrim l)).getD 2 "" = "transcript") :
    classifyDecisive l =
      (if startsWithS ((ssplit '\t' (rtrim l)).getD 8 "") "ID=" then some true
       else if startsWithS ((ssplit '\t' (rtrim l)).getD 8 "") "transcript_id" then
         some false
       else none) := by
  unfold classifyDecisive
  rw [h9, ht]
  simp

theorem classify_none_of_len {l : String}
    (h9 : (ssplit '\t' (rtrim l)).length ≠ 9) :
    classifyDecisive l = none := by
  unfold classifyDecisive
  rw [beq_eq_false_iff_ne.mpr h9]
  rfl

theorem classify_none_of_type {l : String}
    (ht : (ssplit '\t' (rtrim l)).getD 2 "" ≠ "transcript") :
    classifyDecisive l = none := by
  unfold classifyDecisive
  rw [beq_eq_false_iff_ne.mpr ht]
  simp

/-- Claim C3 as amended: format classification skips `#`-prefixed comment
lines and well-formed 9-column `exon`/`CDS` lines; it fails on a blank line or
any other line that does not have exactly 9 tab-separated columns with type
column exactly `transcript` (case-sensitively); at the first `transcript` line
it classifies the file as GFF iff column 9 starts with `ID=` and as GTF iff it
starts with `transcript_id`, failing otherwise; and it fails at end of input —
equivalently, `set_gff` equals the first-non-skippable-line scan
`set_gff_amended`. -/
theorem set_gff_matches_amended :
    ∀ lines : List String, set_gff lines = set_gff_amended lines := by
  intro lines
  induction lines with
  | nil => rfl
  | cons l ls ih =>
    by_cases hc : startsWithS l "#" = true
    · rw [set_gff, if_pos hc, ih, set_gff_amended, set_gff_amended,
        List.find?_cons_of_neg _ (by simp [skippable_comment hc])]
    · rw [Bool.not_eq_true] at hc
      by_cases h9 : (ssplit '\t' (rtrim l)).length = 9
      · by_cases ht : (ssplit '\t' (rtrim l)).getD 2 "" = "transcript"
        · have hcont : (["transcript", "exon", "CDS"].contains
              ((ssplit '\t' (rtrim l)).getD 2 "")) = true := by rw [ht]; rfl
          have hnsk : skippableLine l = false := by
            refine not_skippable_type hc ?_ ?_ <;> rw [ht] <;> decide
          rw [set_gff, if_neg (by simp [hc]), if_neg (by simpa using h9),
            if_neg (by rw [hcont]; decide), if_pos (by rw [ht]; decide),
            set_gff_amended, List.find?_cons_of_pos _ (by simp [hnsk])]
          exact (classify_of_transcript h9 ht).symm.trans rfl
        · by_cases he : (ssplit '\t' (rtrim l)).getD 2 "" = "exon"
          · have hcont : (["transcript", "exon", "CDS"].contains
                ((ssplit '\t' (rtrim l)).getD 2 "")) = true := by rw [he]; rfl
            rw [set_gff, if_neg (by simp [hc]), if_neg (by simpa using h9),
              if_neg (by rw [hcont]; decide),
              if_neg (by rw [beq_eq_false_iff_ne.mpr ht]; decide), ih,
              set_gff_amended, set_gff_amended,
              List.find?_cons_of_neg _ (by simp [skippable_type h9 (Or.inl he)])]
          · by_cases hcds : (ssplit '\t' (rtrim l)).getD 2 "" = "CDS"
            · have hcont : (["transcript", "exon", "CDS"].contains
                  ((ssplit '\t' (rtrim l)).getD 2 "")) = true := by rw [hcds]; rfl
              rw [set_gff, if_neg (by simp [hc]), if_neg (by simpa using h9),
                if_neg (by rw [hcont]; decide),
                if_neg (by rw [beq_eq_false_iff_ne.mpr ht]; decide), ih,
                set_gff_amended, set_gff_amended,
                List.find?_cons_of_neg _ (by simp [skippable_type h9 (Or.inr hcds)])]
            · have hcont : (["transcript", "exon", "CDS"].contains
                  ((ssplit '\t' (rtrim l)).getD 2 "")) = false := by
                rw [containsTEC, beq_eq_false_iff_ne.mpr ht,
                  beq_eq_false_iff_ne.mpr he, beq_eq_false_iff_ne.mpr hcds]
                rfl
              rw [set_gff, if_neg (by simp [hc]), if_neg (by simpa using h9),
                if_pos (by rw [hcont]; decide), set_gff_amended,
                List.find?_cons_of_pos _ (by simp [not_skippable_type hc he hcds])]
              exact (classify_none_of_type ht).symm.trans rfl
      · rw [set_gff, if_neg (by simp [hc]), if_pos h9, set_gff_amended,
          List.find?_cons_of_pos _ (by simp [not_skippable_len hc h9])]
        exact (classify_none_of_len h9).symm.trans rfl

theorem tryFromWith_cases
    (extract : String → List (String × String))
    (ids : List (String × String) → Types → Option String × Option String)
    (line : String) :
    (gffObjectTryFromWith extract ids line
        = .err ("Invalid number of columns in GFF/GTF line: " ++ line)
      ↔ (ssplit '\t' line).length ≠ 9)
    ∧ (gffObjectTryFromWith extract ids line = .panicked
      ↔ malformedPanics line = true)
    ∧ ((∃ o, gffObjectTryFromWith extract ids line = .ok o
          ∧ o.strand = ((ssplit '\t' line).getD 6 "").toList.headD ' ')
      ↔ ((ssplit '\t' line).length = 9 ∧ malformedPanics line = false))
    ∧ (gffObjectTryFromWith extract ids line).isOkB
        = ((ssplit '\t' line).length == 9 && !malformedPanics line) := by
  by_cases h9 : (ssplit '\t' line).length = 9
  · have hb : ((ssplit '\t' line).length == 9) = true := by
      rw [h9]; decide
    simp only [gffObjectTryFromWith, malformedPanics, hb, Bool.true_and]
    rw [if_neg (by simp [h9])]
    cases hp3 : parseUsize ((ssplit '\t' line).getD 3 "") with
    | none => simp [ParseOutcome.isOkB, h9]
    | some s =>
      cases hp4 : parseUsize ((ssplit '\t' line).getD 4 "") with
      | none => simp [ParseOutcome.isOkB, h9]
      | some e =>
        by_cases hse : s > e
        · simp [hse, ParseOutcome.isOkB, h9]
        · cases hc6 : ((ssplit '\t' line).getD 6 "").toList with
          | nil => simp [hse, ParseOutcome.isOkB, h9]
          | cons c cs =>
            refine ⟨?_, ?_, ?_, ?_⟩ <;> simp [hse, ParseOutcome.isOkB] <;>
              exact h9
  · have hb : ((ssplit '\t' line).length == 9) = false :=
      beq_eq_false_iff_ne.mpr h9
    have hr : gffObjectTryFromWith extract ids line
        = .err ("Invalid number of columns in GFF/GTF line: " ++ line) := by
      simp only [gffObjectTryFromWith]
      rw [if_pos h9]
    have hm : malformedPanics line = false := by
      simp only [malformedPanics]
      rw [hb]
      rfl
    rw [hr, hm]
    simp [h9, hb, ParseOutcome.isOkB]

/-- Claim C4 as amended: parsing a line returns the typed error carrying the
offending line text exactly when the column count is not 9; with 9 columns, an
unparsable start or end coordinate, `start > end`, or an empty strand column
makes it panic (through `unwrap`) instead; otherwise parsing succeeds, storing
the first character of the strand column without validating it against
`+`/`-`/`.`. -/
theorem try_from_error_characterization :
    ∀ (extract : String → List (String × String))
      (ids : List (String × String) → Types → Option String × Option String)
      (line : String),
      (gffObjectTryFromWith extract ids line
          = .err ("Invalid number of columns in GFF/GTF line: " ++ line)
        ↔ (ssplit '\t' line).length ≠ 9)
      ∧ (gffObjectTryFromWith extract ids line = .panicked
        ↔ malformedPanics line = true)
      ∧ ((∃ o, gffObjectTryFromWith extract ids line = .ok o
            ∧ o.strand = ((ssplit '\t' line).getD 6 "").toList.headD ' ')
        ↔ ((ssplit '\t' line).length = 9 ∧ malformedPanics line = false)) := by
  intro extract ids line
  obtain ⟨a, b, c, _⟩ := tryFromWith_cases extract ids line
  exact ⟨a, b, c⟩

/-- Claim C5 as amended: record construction never consults the attribute
tokenization — whether a record is produced is independent of the attribute
extractor and identity resolver — and a non-Intergenic line whose 9th column
yields no key-value pair still constructs successfully (with an empty
attribute mapping), rather than returning a caller-visible error. -/
theorem try_from_ignores_attribute_tokenization :
    (∀ (e1 e2 : String → List (String × String))
       (i1 i2 : List (String × String) → Types → Option String × Option String)
       (line : String),
      (gffObjectTryFromWith e1 i1 line).isOkB
        = (gffObjectTryFromWith e2 i2 line).isOkB)
    ∧ extract_attributes_line "garbage" = []
    ∧ (gffObjectTryFrom c5Line).isOkB = true := by
  refine ⟨?_, by decide, by decide⟩
  intro e1 e2 i1 i2 line
  exact (tryFromWith_cases e1 i1 line).2.2.2.trans
    (tryFromWith_cases e2 i2 line).2.2.2.symm

theorem splitOnceAux_eq (c : Char) :
    ∀ l : List Char,
      splitOnceAux c l =
        (if l.any (fun x => x == c) then
          some (l.takeWhile (fun x => x != c),
            (l.dropWhile (fun x => x != c)).drop 1)
        else none) := by
  intro l
  induction l with
  | nil => rfl
  | cons x xs ih =>
    by_cases hx : x = c
    · subst hx
      simp [splitOnceAux, List.takeWhile_cons, List.dropWhile_cons]
    · simp only [splitOnceAux, List.any_cons, List.takeWhile_cons,
        List.dropWhile_cons, beq_eq_false_iff_ne.mpr hx, Bool.false_or,
        bne, Bool.not_false, if_true, if_neg hx, ih]
      by_cases ha : xs.any (fun x => x == c) = true
      · simp [ha, beq_eq_false_iff_ne.mpr hx]
      · simp [ha, beq_eq_false_iff_ne.mpr hx]

theorem foldl_funext {α β : Type} (f g : α → β → α)
    (h : ∀ a b, f a b = g a b) :
    ∀ (l : List β) (init : α), l.foldl f init = l.foldl g init := by
  intro l
  induction l with
  | nil => intro init; rfl
  | cons x xs ih =>
    intro init
    rw [List.foldl_cons, List.foldl_cons, h, ih]

theorem gff_step_eq (m : List (String × String)) (pair : String) :
    (match splitOnceChar '=' pair with
     | some (k, v) => insertA m (lowerS k) v
     | none => m)
      = (match claimPairParse true pair with
         | some (k, v) => insertA m k v
         | none => m) := by
  rw [splitOnceChar, splitOnceAux_eq]
  by_cases h : '=' ∈ pair.data
  · simp [h, claimPairParse]
  · simp [h, claimPairParse]

theorem gtf_step_eq (m : List (String × String)) (pair : String) :
    (match splitOnceChar ' ' pair with
     | some (k, v) => insertA m (lowerS k) (trimMatches '"' v)
     | none => m)
      = (match claimPairParse false pair with
         | some (k, v) => insertA m k v
         | none => m) := by
  rw [splitOnceChar, splitOnceAux_eq]
  by_cases h : ' ' ∈ pair.data
  · simp [h, claimPairParse]
  · simp [h, claimPairParse]

/-- Claim C8 as amended: the codec splits on `;`, trims whitespace, and drops
malformed pairs without error; in GFF dialect each pair is split on the first
`=` with the key lower-cased and the value kept verbatim; in GTF dialect each
pair is split on the first space character (not general whitespace) with the
key lower-cased and surrounding `"` stripped from the value — equivalently
`extract_attributes` equals the claim-side codec — and on the claim's
examples the GFF attribute string yields the bindings id/gene1 and name/GENE1
and the GTF one yields gene_id/g1 and transcript_id/t1. -/
theorem extract_attributes_amended_eq :
    (∀ (attr_str : String) (d : Bool),
      extract_attributes attr_str d = extract_attributes_amended attr_str d)
    ∧ extract_attributes "ID=gene1;Name=GENE1" true
        = [("id", "gene1"), ("name", "GENE1")]
    ∧ lookupA (extract_attributes "ID=gene1;Name=GENE1" true) "id"
        = some "gene1"
    ∧ lookupA (extract_attributes "ID=gene1;Name=GENE1" true) "name"
        = some "GENE1"
    ∧ extract_attributes "gene_id \"g1\"; transcript_id \"t1\"" false
        = [("gene_id", "g1"), ("transcript_id", "t1")]
    ∧ lookupA (extract_attributes "gene_id \"g1\"; transcript_id \"t1\"" false)
        "gene_id" = some "g1"
    ∧ lookupA (extract_attributes "gene_id \"g1\"; transcript_id \"t1\"" false)
        "transcript_id" = some "t1" := by
  refine ⟨?_, by decide, by decide, by decide, by decide, by decide, by decide⟩
  intro attr_str d
  cases d with
  | true =>
    simp only [extract_attributes, extract_attributes_amended, if_true]
    exact foldl_funext _ _ gff_step_eq _ _
  | false =>
    simp only [extract_attributes, extract_attributes_amended,
      Bool.false_eq_true, if_false]
    exact foldl_funext _ _ gtf_step_eq _ _
